import Mathlib

/-!
Verification of the rule-evaluation logic of GramaSarathi (src/utils.py):
`validate_input`, `filter_schemes` and `evaluate_step2`.

Modelling conventions for the shallow embedding:
  * Python strings are `Str := List Char` so that every operation is
    kernel-computable; `str.lower()` is modelled for the ASCII range.
  * A Python form value `data.get(field)` is an `Option Str`; Python
    string truthiness (`if not s`) is `truthy`.
  * Python `int(...)` on a string is `parseInt` (trimmed, optional sign,
    decimal digits); numbers are modelled as `Int`.
  * A scheme record is a structure holding the fields `filter_schemes` and
    `evaluate_step2` read; all remaining descriptive JSON fields are kept
    abstractly in `extra` so that frame properties can be stated.
  * A Python exception (the IndexError reachable in the age-range check, or
    a type error) is `Except.error`; normal returns are `Except.ok`.
  * `filter_schemes` returns `{"error": msg}` or a list; that sum is
    `FilterOutcome`.
-/

/-- A Python string, modelled as its list of characters. -/
abbrev Str := List Char

/-- Python string truthiness of an optional form value: `None` and `""` are
falsy, every other string is truthy. -/
def truthy : Option Str → Bool
  | none => false
  | some s => !s.isEmpty

/-- Model of Python `str.lower()` on one character (ASCII range). -/
def lowerChar (c : Char) : Char :=
  if 'A' ≤ c ∧ c ≤ 'Z' then Char.ofNat (c.toNat + 32) else c

/-- Model of Python `str.lower()`. -/
def lowerStr (s : Str) : Str := s.map lowerChar

/-- Model of Python `str.strip()` as applied implicitly by `int(...)`. -/
def trimStr (s : Str) : Str :=
  ((s.dropWhile Char.isWhitespace).reverse.dropWhile Char.isWhitespace).reverse

/-- Decimal digits to the number they denote. -/
def digitsToNat (s : Str) : Nat :=
  s.foldl (fun acc c => acc * 10 + (c.toNat - 48)) 0

/-- Nonempty all-digit strings parse; anything else does not. -/
def strToNat? (s : Str) : Option Nat :=
  if !s.isEmpty && s.all Char.isDigit then some (digitsToNat s) else none

/-- Model of Python `int(s)` on a string: strip whitespace, optional single
sign, then decimal digits; anything else raises `ValueError`, modelled as
`none`. -/
def parseInt (s : Str) : Option Int :=
  match trimStr s with
  | '-' :: rest => (strToNat? rest).map (fun n => -(n : Int))
  | '+' :: rest => (strToNat? rest).map (fun n => (n : Int))
  | t => (strToNat? t).map (fun n => (n : Int))

/-- Model of Python `str(...)` on a nonnegative integer id (digits of `n`). -/
def natToStr (n : Nat) : Str := Nat.toDigits 10 n

/-- Model of Python `str(...)` on an integer id. -/
def intToStr : Int → Str
  | Int.ofNat n => natToStr n
  | Int.negSucc n => '-' :: natToStr (n + 1)

/-- The raw user input read by `validate_input` and `filter_schemes`:
each field is the submitted form string, or `none` when absent.
(`hk_quota` is collected by the app but never read by the logic under
verification, so it is omitted.) -/
structure UserInput where
  age : Option Str
  gender : Option Str
  caste : Option Str
  district : Option Str
  income : Option Str
  occupation : Option Str
  location : Option Str
deriving Repr, DecidableEq

/-- The value of a scheme's `income_limit` JSON field when present: either a
single number or a JSON array of numbers. -/
inductive IncomeLimit where
  | num (n : Int)
  | arr (l : List Int)
deriving Repr, DecidableEq

/-- The `eligibility` criteria group of a scheme. Absent list-valued axes
are the empty list, matching `elig.get(axis, [])` in the source;
`age_range` and `income_limit` are `none` when absent. -/
structure Eligibility where
  age_range : Option (List Int)
  gender : List Str
  caste : List Str
  income_limit : Option IncomeLimit
  occupation : List Str
  loc : List Str
deriving Repr, DecidableEq

/-- The `step2_question` object of a scheme: `question` and
`expected_answer` are `none` when the key is absent. -/
structure Step2Question where
  question : Option Str
  expected_answer : Option Str
deriving Repr, DecidableEq

/-- A scheme record. `id`, `eligibility` and `step2_question` are the fields
the logic reads; `extra` stands for all other (descriptive) JSON fields;
`final_eligible` is the flag added by `evaluate_step2` (absent, i.e. `none`,
until then). -/
structure Scheme where
  id : Int
  extra : List (Str × Str)
  eligibility : Eligibility
  step2_question : Option Step2Question
  final_eligible : Option Bool
deriving Repr, DecidableEq

/-- Embedding of `validate_input` (src/utils.py lines 1-40): sequential
early-return checks in source order; `none` is Python `True` (valid), and
`some msg` is the returned error string. -/
def validate_input (data : UserInput) : Option Str :=
  if !(truthy data.age) then some "Age is a required field.".data
  else
    match parseInt (data.age.getD []) with
    | none => some "Invalid age value. Please enter a number.".data
    | some age =>
      if !(decide (0 ≤ age) && decide (age ≤ 150)) then
        some "Age must be between 0 and 150.".data
      else if !(truthy data.income) then some "Annual Income is a required field.".data
      else
        match parseInt (data.income.getD []) with
        | none => some "Invalid annual income value. Please select a valid range.".data
        | some income =>
          if income < 0 then some "Annual Income cannot be negative.".data
          else if !(truthy data.gender) then some "Missing required field: Gender.".data
          else if !(truthy data.caste) then some "Missing required field: Caste.".data
          else if !(truthy data.district) then some "Missing required field: District.".data
          else if !(truthy data.occupation) then some "Missing required field: Occupation.".data
          else if !(truthy data.location) then some "Missing required field: Location.".data
          else none

/-- Embedding of the age-range check of `filter_schemes`
(`if age_range and not (age_range[0] <= age <= age_range[1])`).
A falsy `age_range` (absent or the empty list) passes. Python's chained
comparison evaluates `age_range[0] <= age` first, so on a one-element list
the IndexError from `age_range[1]` is raised only when that first
comparison holds. -/
def age_range_check (age_range : Option (List Int)) (age : Int) : Except Str Bool :=
  match age_range with
  | none => Except.ok true
  | some [] => Except.ok true
  | some [lo] =>
    if lo ≤ age then Except.error "IndexError: list index out of range".data
    else Except.ok false
  | some (lo :: hi :: _) => Except.ok (decide (lo ≤ age) && decide (age ≤ hi))

/-- Embedding of the gender/caste/occupation/location membership checks of
`filter_schemes`: lowercase the scheme's accepted values; the check fails
exactly when the list is nonempty, lacks the unconstrained sentinel, and
lacks the user's (already lowercased) value. -/
def set_check (scheme_vals : List Str) (sentinel user_val : Str) : Bool :=
  let lowered := scheme_vals.map lowerStr
  !(!lowered.isEmpty && !(lowered.contains sentinel) && !(lowered.contains user_val))

/-- Embedding of the income check of `filter_schemes`: absent limit passes;
a scalar limit fails exactly when `income > limit`; a two-element list is
an inclusive range; any other list imposes no constraint. -/
def income_check (limit : Option IncomeLimit) (income : Int) : Bool :=
  match limit with
  | none => true
  | some (IncomeLimit.num n) => !(income > n)
  | some (IncomeLimit.arr l) =>
    match l with
    | [lo, hi] => !(!(decide (lo ≤ income) && decide (income ≤ hi)))
    | _ => true

/-- Embedding of the per-scheme body of the `filter_schemes` loop: six
checks in source order; only the age-range check can raise, and it is
evaluated first, so the scheme's eligibility is the conjunction of the six
checks once the age check returns. -/
def scheme_is_eligible (sch : Scheme) (age income : Int)
    (gender caste occupation location : Str) : Except Str Bool :=
  match age_range_check sch.eligibility.age_range age with
  | Except.error e => Except.error e
  | Except.ok c1 =>
    Except.ok (c1
      && set_check sch.eligibility.gender "all".data gender
      && set_check sch.eligibility.caste "all".data caste
      && income_check sch.eligibility.income_limit income
      && set_check sch.eligibility.occupation "any".data occupation
      && set_check sch.eligibility.loc "all".data location)

/-- The loop of `filter_schemes`: append each eligible scheme, preserving
order; propagate any exception raised by a check. -/
def run_filter (schemes : List Scheme) (age income : Int)
    (gender caste occupation location : Str) : Except Str (List Scheme) :=
  match schemes with
  | [] => Except.ok []
  | sch :: rest =>
    match scheme_is_eligible sch age income gender caste occupation location with
    | Except.error e => Except.error e
    | Except.ok b =>
      match run_filter rest age income gender caste occupation location with
      | Except.error e => Except.error e
      | Except.ok tail => Except.ok (if b then sch :: tail else tail)

/-- The normal return value of `filter_schemes`: the `{"error": msg}`
dictionary, or the list of eligible schemes. -/
inductive FilterOutcome where
  | err (msg : Str)
  | schemes (l : List Scheme)
deriving Repr, DecidableEq

/-- Embedding of `filter_schemes` (src/utils.py lines 42-107): run the
validator and wrap its message on failure; otherwise convert the user's
fields (`int(...)` on age and income, `.lower()` on the string axes) and
filter. The outer `Except` is Python exception propagation; the inner
conversion of age and income cannot fail after validation (proved below). -/
def filter_schemes (schemes : List Scheme) (user_input : UserInput) :
    Except Str FilterOutcome :=
  match validate_input user_input with
  | some msg => Except.ok (FilterOutcome.err msg)
  | none =>
    match user_input.age.bind parseInt, user_input.income.bind parseInt with
    | some age, some income =>
      match run_filter schemes age income
          (lowerStr (user_input.gender.getD []))
          (lowerStr (user_input.caste.getD []))
          (lowerStr (user_input.occupation.getD []))
          (lowerStr (user_input.location.getD [])) with
      | Except.error e => Except.error e
      | Except.ok l => Except.ok (FilterOutcome.schemes l)
    | _, _ => Except.error "TypeError".data

/-- Embedding of `evaluate_step2` (src/utils.py lines 109-127): for each
scheme, when `step2_question` is present and its `question` is truthy,
`final_eligible` is set to the lowercased comparison of the submitted
answer (looked up under the scheme id rendered as a string, defaulting to
`""`) with the expected answer (defaulting to `""`); otherwise
`final_eligible` is set to `true`. The answers mapping is an association
list keyed by the scheme id string. -/
def evaluate_step2 (schemes : List Scheme) (answers : List (Str × Str)) :
    List Scheme :=
  schemes.map (fun sch =>
    match sch.step2_question with
    | some step2 =>
      if truthy step2.question then
        let question_id := intToStr sch.id
        let user_ans := lowerStr ((answers.lookup question_id).getD [])
        let expected := lowerStr (step2.expected_answer.getD [])
        { sch with final_eligible := some (user_ans == expected) }
      else
        { sch with final_eligible := some true }
    | none => { sch with final_eligible := some true })

/-! Specification-side definitions, following the spec's wording, to be
compared with the source embedding (refinement statements). -/

/-- First-of-two option choice, used to express the spec's short-circuit
"returns the first failing condition only". -/
def orFirst : Option Str → Option Str → Option Str
  | some msg, _ => some msg
  | none, rest => rest

/-- The age condition of the spec's validator: fails when age is missing,
non-numeric, or outside `[0,150]`. -/
def age_error (data : UserInput) : Option Str :=
  if !(truthy data.age) then some "Age is a required field.".data
  else
    match parseInt (data.age.getD []) with
    | none => some "Invalid age value. Please enter a number.".data
    | some age =>
      if !(decide (0 ≤ age) && decide (age ≤ 150)) then
        some "Age must be between 0 and 150.".data
      else none

/-- The income condition of the spec's validator: fails when income is
missing, non-numeric, or negative. -/
def income_error (data : UserInput) : Option Str :=
  if !(truthy data.income) then some "Annual Income is a required field.".data
  else
    match parseInt (data.income.getD []) with
    | none => some "Invalid annual income value. Please select a valid range.".data
    | some income =>
      if income < 0 then some "Annual Income cannot be negative.".data
      else none

/-- The required-field condition of the spec's validator for one remaining
field. -/
def missing_error (display : Str) (v : Option Str) : Option Str :=
  if !(truthy v) then some ("Missing required field: ".data ++ display ++ ".".data)
  else none

/-- The spec's validator: the error of the first failing condition, in the
fixed order age, income, gender, caste, district, occupation, location. -/
def first_failure (data : UserInput) : Option Str :=
  orFirst (age_error data)
    (orFirst (income_error data)
      (orFirst (missing_error "Gender".data data.gender)
        (orFirst (missing_error "Caste".data data.caste)
          (orFirst (missing_error "District".data data.district)
            (orFirst (missing_error "Occupation".data data.occupation)
              (missing_error "Location".data data.location))))))

/-! Helper lemmas. -/

/-- When validation succeeds, the age and income strings parse (so the
conversions at the top of `filter_schemes` cannot raise). -/
theorem validate_none_parses (u : UserInput) (h : validate_input u = none) :
    (∃ a, u.age.bind parseInt = some a) ∧ (∃ b, u.income.bind parseInt = some b) := by
  unfold validate_input at h
  cases hu : u.age with
  | none => rw [hu] at h; simp [truthy] at h
  | some s =>
    rw [hu] at h
    cases hs : truthy (some s) with
    | false => rw [hs] at h; simp at h
    | true =>
      rw [hs] at h
      simp only [Bool.not_true, Bool.false_eq_true, if_false] at h
      cases hp : parseInt ((some s).getD []) with
      | none => rw [hp] at h; simp at h
      | some age =>
        rw [hp] at h
        dsimp only at h
        refine ⟨⟨age, by simpa using hp⟩, ?_⟩
        cases hb : (decide (0 ≤ age) && decide (age ≤ 150)) with
        | false => rw [hb] at h; simp at h
        | true =>
          rw [hb] at h
          simp only [Bool.not_true, Bool.false_eq_true, if_false] at h
          cases hi : u.income with
          | none => rw [hi] at h; simp [truthy] at h
          | some t =>
            rw [hi] at h
            cases ht : truthy (some t) with
            | false => rw [ht] at h; simp at h
            | true =>
              rw [ht] at h
              simp only [Bool.not_true, Bool.false_eq_true, if_false] at h
              cases hq : parseInt ((some t).getD []) with
              | none => rw [hq] at h; simp at h
              | some income => exact ⟨income, by simpa using hq⟩


/-- The C3 claim. `validate_input` returns the error of the first failing
condition only, checked in the fixed order age, income, gender, caste,
district, occupation, location, and succeeds when none fails; the age
condition fails exactly unless age is present, numeric and in `[0,150]`,
and the income condition fails exactly unless income is present, numeric
and nonnegative. -/
theorem validate_input_first_failure :
    (∀ data : UserInput, validate_input data = first_failure data) ∧
    (∀ data : UserInput, age_error data = none ↔
      truthy data.age = true ∧
        ∃ n, parseInt (data.age.getD []) = some n ∧ 0 ≤ n ∧ n ≤ 150) ∧
    (∀ data : UserInput, income_error data = none ↔
      truthy data.income = true ∧
        ∃ n, parseInt (data.income.getD []) = some n ∧ 0 ≤ n) := by
  refine ⟨?_, ?_, ?_⟩
  · intro data
    unfold validate_input first_failure age_error income_error
    cases h1 : truthy data.age with
    | false => simp [h1, orFirst]
    | true =>
      simp only [h1, Bool.not_true, Bool.false_eq_true, if_false]
      cases h2 : parseInt (data.age.getD []) with
      | none => simp [orFirst]
      | some age =>
        cases h3 : (decide (0 ≤ age) && decide (age ≤ 150)) with
        | false => simp [h3, orFirst]
        | true =>
          simp only [h3, Bool.not_true, Bool.false_eq_true, if_false]
          cases h4 : truthy data.income with
          | false => simp [h4, orFirst]
          | true =>
            simp only [h4, Bool.not_true, Bool.false_eq_true, if_false]
            cases h5 : parseInt (data.income.getD []) with
            | none => simp [orFirst]
            | some income =>
              by_cases h6 : income < 0
              · simp [h6, orFirst]
              · simp only [h6, if_false]
                cases h7 : truthy data.gender <;>
                cases h8 : truthy data.caste <;>
                cases h9 : truthy data.district <;>
                cases h10 : truthy data.occupation <;>
                cases h11 : truthy data.location <;>
                simp [h7, h8, h9, h10, h11, missing_error, orFirst]
  · intro data
    unfold age_error
    cases h1 : truthy data.age with
    | false => simp [h1]
    | true =>
      simp only [Bool.not_true, Bool.false_eq_true, if_false]
      cases h2 : parseInt (data.age.getD []) with
      | none => simp
      | some n =>
        dsimp only
        by_cases hb : 0 ≤ n ∧ n ≤ 150
        · rw [decide_eq_true hb.1, decide_eq_true hb.2]
          simp [hb.1, hb.2]
        · have hfalse : (decide (0 ≤ n) && decide (n ≤ 150)) = false := by
            cases hd : (decide (0 ≤ n) && decide (n ≤ 150)) with
            | false => rfl
            | true => exact absurd (by simpa using hd) hb
          rw [hfalse]
          simp [hb]
  · intro data
    unfold income_error
    cases h1 : truthy data.income with
    | false => simp [h1]
    | true =>
      simp only [Bool.not_true, Bool.false_eq_true, if_false]
      cases h2 : parseInt (data.income.getD []) with
      | none => simp
      | some n =>
        dsimp only
        by_cases h3 : n < 0
        · rw [if_pos h3]
          simp
          omega
        · rw [if_neg h3]
          simp
          omega

/-- Spec-side pure age check: unconstrained (absent or empty) passes;
a pair is an inclusive range. On a one-element list it records the value
the source computes when it does not raise. -/
def age_check_pure (age_range : Option (List Int)) (age : Int) : Bool :=
  match age_range with
  | none => true
  | some [] => true
  | some [_] => false
  | some (lo :: hi :: _) => decide (lo ≤ age) && decide (age ≤ hi)

/-- Spec-side conjunction of the six axis checks: a scheme is eligible
exactly when all six pass. -/
def passes_all_checks (sch : Scheme) (age income : Int)
    (gender caste occupation location : Str) : Bool :=
  age_check_pure sch.eligibility.age_range age
    && set_check sch.eligibility.gender "all".data gender
    && set_check sch.eligibility.caste "all".data caste
    && income_check sch.eligibility.income_limit income
    && set_check sch.eligibility.occupation "any".data occupation
    && set_check sch.eligibility.loc "all".data location

/-- A scheme's `age_range` cannot make the source raise: absent, or not of
length exactly one. -/
def age_range_wf (sch : Scheme) : Bool :=
  (sch.eligibility.age_range.getD []).length != 1

/-- A scheme's `age_range`, when present, is a pair of numbers. -/
def age_range_is_pair (sch : Scheme) : Bool :=
  match sch.eligibility.age_range with
  | none => true
  | some l => l.length == 2

/-- On a well-formed `age_range` the source's age check returns the pure
age check. -/
theorem age_range_check_of_wf (age_range : Option (List Int)) (age : Int)
    (h : (age_range.getD []).length ≠ 1) :
    age_range_check age_range age = Except.ok (age_check_pure age_range age) := by
  match age_range with
  | none => rfl
  | some [] => rfl
  | some [lo] => exact absurd rfl h
  | some (lo :: hi :: rest) => rfl

/-- On a scheme with well-formed `age_range` the loop body returns the pure
conjunction of the six checks. -/
theorem scheme_is_eligible_of_wf (sch : Scheme) (age income : Int)
    (gender caste occupation location : Str) (h : age_range_wf sch = true) :
    scheme_is_eligible sch age income gender caste occupation location =
      Except.ok (passes_all_checks sch age income gender caste occupation location) := by
  unfold scheme_is_eligible passes_all_checks
  rw [age_range_check_of_wf sch.eligibility.age_range age (by simpa [age_range_wf] using h)]

/-- On well-formed schemes the loop is `List.filter` of the pure predicate
(so it is order-preserving and deterministic). -/
theorem run_filter_eq_filter (schemes : List Scheme) (age income : Int)
    (gender caste occupation location : Str)
    (h : ∀ sch ∈ schemes, age_range_wf sch = true) :
    run_filter schemes age income gender caste occupation location =
      Except.ok (schemes.filter
        (fun sch => passes_all_checks sch age income gender caste occupation location)) := by
  induction schemes with
  | nil => rfl
  | cons sch rest ih =>
    have hsch : age_range_wf sch = true := h sch (List.mem_cons_self sch rest)
    have hrest : ∀ s ∈ rest, age_range_wf s = true :=
      fun s hs => h s (List.mem_cons_of_mem sch hs)
    unfold run_filter
    rw [scheme_is_eligible_of_wf sch age income gender caste occupation location hsch,
      ih hrest, List.filter_cons]

/-- The C1 claim. For input passing validation and schemes whose
`age_range` cannot raise, `filter_schemes` returns exactly the
order-preserving `List.filter` of the conjunction of the six axis checks,
applied to the parsed age and income and the lowercased string axes; being
a pure function of its arguments, it is deterministic. -/
theorem filter_schemes_eq_filter_of_valid (schemes : List Scheme) (u : UserInput)
    (hv : validate_input u = none)
    (hwf : ∀ sch ∈ schemes, age_range_wf sch = true) :
    filter_schemes schemes u =
      Except.ok (FilterOutcome.schemes (schemes.filter (fun sch =>
        passes_all_checks sch ((u.age.bind parseInt).getD 0)
          ((u.income.bind parseInt).getD 0)
          (lowerStr (u.gender.getD [])) (lowerStr (u.caste.getD []))
          (lowerStr (u.occupation.getD [])) (lowerStr (u.location.getD []))))) := by
  obtain ⟨⟨a, ha⟩, ⟨b, hb⟩⟩ := validate_none_parses u hv
  unfold filter_schemes
  rw [hv, ha, hb]
  dsimp only
  rw [run_filter_eq_filter _ _ _ _ _ _ _ hwf]
  simp

/-! Concrete fixtures (shaped after the spec's worked example) used by the
witness theorems. -/

/-- A user input that passes validation. -/
def exUser : UserInput :=
  { age := some "30".data, gender := some "Female".data, caste := some "General".data,
    district := some "Mandya".data, income := some "40000".data,
    occupation := some "Farmer".data, location := some "Rural".data }

/-- A user input that fails validation (age missing). -/
def exBadUser : UserInput :=
  { age := none, gender := some "Female".data, caste := some "General".data,
    district := some "Mandya".data, income := some "40000".data,
    occupation := some "Farmer".data, location := some "Rural".data }

/-- Criteria of the spec's example scheme: ages 18-60, any gender, income
at most 50000. -/
def exElig1 : Eligibility :=
  { age_range := some [18, 60], gender := ["All".data], caste := [],
    income_limit := some (IncomeLimit.num 50000), occupation := [], loc := [] }

/-- The spec's example scheme, no step-2 question. -/
def exScheme1 : Scheme :=
  { id := 1, extra := [("name".data, "Scheme One".data)], eligibility := exElig1,
    step2_question := none, final_eligible := none }

/-- A stricter scheme (income at most 30000) with a step-2 question. -/
def exScheme2 : Scheme :=
  { id := 2, extra := [],
    eligibility :=
      { age_range := some [18, 60], gender := [], caste := [],
        income_limit := some (IncomeLimit.num 30000), occupation := [], loc := [] },
    step2_question := some { question := some "Do you own land?".data,
                             expected_answer := some "Yes".data },
    final_eligible := none }

/-- The example scheme list. -/
def exSchemes : List Scheme := [exScheme1, exScheme2]

instance {e a : Type} [DecidableEq e] [DecidableEq a] : DecidableEq (Except e a) := fun x y =>
  match x, y with
  | Except.error v, Except.error w =>
    if h : v = w then Decidable.isTrue (by rw [h])
    else Decidable.isFalse (fun hc => h (Except.error.inj hc))
  | Except.ok v, Except.ok w =>
    if h : v = w then Decidable.isTrue (by rw [h])
    else Decidable.isFalse (fun hc => h (Except.ok.inj hc))
  | Except.error _, Except.ok _ => Decidable.isFalse (fun hc => Except.noConfusion hc)
  | Except.ok _, Except.error _ => Decidable.isFalse (fun hc => Except.noConfusion hc)

example : filter_schemes exSchemes exUser =
    Except.ok (FilterOutcome.schemes [exScheme1]) := by decide

/-- The C4 claim. An absent or empty `age_range` passes for every age; an
empty value set passes for every user value; a value set containing its
sentinel (after lowercasing) passes for every user value; an absent
`income_limit` passes for every income. The sentinel is `"all"` for the
gender, caste and location axes and `"any"` for occupation, as instantiated
in `scheme_is_eligible`. -/
theorem unconstrained_axis_passes :
    (∀ age : Int, age_range_check none age = Except.ok true) ∧
    (∀ age : Int, age_range_check (some []) age = Except.ok true) ∧
    (∀ sentinel user_val : Str, set_check [] sentinel user_val = true) ∧
    (∀ (vals : List Str) (sentinel user_val : Str),
      (vals.map lowerStr).contains sentinel = true →
      set_check vals sentinel user_val = true) ∧
    (∀ income : Int, income_check none income = true) := by
  refine ⟨fun _ => rfl, fun _ => rfl, fun _ _ => rfl, ?_, fun _ => rfl⟩
  intro vals sentinel user_val h
  simp only [set_check]
  rw [h]
  simp

/-- Witness for C4: the sentinel `"ALL"` written in any case unconstrains
the gender axis. -/
theorem unconstrained_axis_passes_witness :
    ((["ALL".data].map lowerStr).contains "all".data = true) ∧
    set_check ["ALL".data] "all".data "female".data = true :=
  ⟨by decide, unconstrained_axis_passes.2.2.2.1 ["ALL".data] "all".data "female".data (by decide)⟩

/-- The C5 claim. A scalar `income_limit` admits exactly the incomes at
most the limit (so equality passes and exceeding fails), and a two-element
`income_limit` list admits exactly the incomes inclusively within the
range. -/
theorem income_check_scalar_and_range :
    (∀ limit income : Int,
      income_check (some (IncomeLimit.num limit)) income = true ↔ income ≤ limit) ∧
    (∀ limit : Int, income_check (some (IncomeLimit.num limit)) limit = true) ∧
    (∀ limit income : Int, limit < income →
      income_check (some (IncomeLimit.num limit)) income = false) ∧
    (∀ lo hi income : Int,
      income_check (some (IncomeLimit.arr [lo, hi])) income = true ↔
        lo ≤ income ∧ income ≤ hi) := by
  refine ⟨?_, ?_, ?_, ?_⟩
  · intro limit income
    simp [income_check]
  · intro limit
    simp [income_check]
  · intro limit income h
    simp [income_check]
    omega
  · intro lo hi income
    simp [income_check]

/-- Witness for C5: an income of 60000 exceeds a scalar limit of 40000 and
fails the income check. -/
theorem income_check_scalar_and_range_witness :
    ((40000 : Int) < 60000) ∧
    income_check (some (IncomeLimit.num 40000)) 60000 = false :=
  ⟨by decide, income_check_scalar_and_range.2.2.1 40000 60000 (by decide)⟩

/-- The C10 claim. An `income_limit` list that does not have exactly two
elements imposes no constraint: the (total, never-raising) income check
passes every income. -/
theorem income_check_malformed_list_passes (l : List Int) (income : Int)
    (h : l.length ≠ 2) :
    income_check (some (IncomeLimit.arr l)) income = true := by
  rcases l with _ | ⟨a, _ | ⟨b, _ | ⟨c, rest⟩⟩⟩
  · rfl
  · rfl
  · exact absurd rfl h
  · rfl

/-- Witness for C10: a three-element limit list excludes nobody. -/
theorem income_check_malformed_list_passes_witness :
    (([1, 2, 3] : List Int).length ≠ 2) ∧
    income_check (some (IncomeLimit.arr [1, 2, 3])) 999999 = true :=
  ⟨by decide, income_check_malformed_list_passes [1, 2, 3] 999999 (by decide)⟩

/-- The C6 claim. When validation fails, `filter_schemes` returns the
validator's error wrapped as an error result and filters nothing; when
validation succeeds (and no scheme has a raising `age_range`), it returns a
list of schemes. -/
theorem filter_schemes_propagates_validation :
    (∀ (schemes : List Scheme) (u : UserInput) (msg : Str),
      validate_input u = some msg →
      filter_schemes schemes u = Except.ok (FilterOutcome.err msg)) ∧
    (∀ (schemes : List Scheme) (u : UserInput),
      validate_input u = none →
      (∀ sch ∈ schemes, age_range_wf sch = true) →
      ∃ l : List Scheme,
        filter_schemes schemes u = Except.ok (FilterOutcome.schemes l)) := by
  constructor
  · intro schemes u msg h
    unfold filter_schemes
    rw [h]
  · intro schemes u hv hwf
    obtain ⟨⟨a, ha⟩, ⟨b, hb⟩⟩ := validate_none_parses u hv
    refine ⟨schemes.filter (fun sch =>
      passes_all_checks sch a b (lowerStr (u.gender.getD [])) (lowerStr (u.caste.getD []))
        (lowerStr (u.occupation.getD [])) (lowerStr (u.location.getD []))), ?_⟩
    unfold filter_schemes
    rw [hv, ha, hb]
    dsimp only
    rw [run_filter_eq_filter _ _ _ _ _ _ _ hwf]

/-- Witness for C6: with age missing, the validator's message is wrapped as
the error result; with the valid example user a scheme list is returned. -/
theorem filter_schemes_propagates_validation_witness :
    (validate_input exBadUser = some "Age is a required field.".data) ∧
    (filter_schemes exSchemes exBadUser =
      Except.ok (FilterOutcome.err "Age is a required field.".data)) ∧
    (validate_input exUser = none) ∧
    (∃ l, filter_schemes exSchemes exUser = Except.ok (FilterOutcome.schemes l)) :=
  ⟨by decide,
   filter_schemes_propagates_validation.1 exSchemes exBadUser
     "Age is a required field.".data (by decide),
   by decide,
   filter_schemes_propagates_validation.2 exSchemes exUser (by decide) (by decide)⟩

/-- The C9 claim. On schemes whose `age_range`, when present, is a pair of
numbers (the other criteria fields being well-typed by construction of the
embedding), `filter_schemes` is total: it returns a result and raises no
exception, for every user input. -/
theorem filter_schemes_total (schemes : List Scheme) (u : UserInput)
    (h : ∀ sch ∈ schemes, age_range_is_pair sch = true) :
    ∃ r, filter_schemes schemes u = Except.ok r := by
  cases hv : validate_input u with
  | some msg =>
    refine ⟨FilterOutcome.err msg, ?_⟩
    unfold filter_schemes
    rw [hv]
  | none =>
    have hwf : ∀ sch ∈ schemes, age_range_wf sch = true := by
      intro sch hs
      have hp := h sch hs
      cases har : sch.eligibility.age_range with
      | none => simp [age_range_wf, har]
      | some l =>
        simp [age_range_is_pair, har] at hp
        simp [age_range_wf, har]
        omega
    obtain ⟨⟨a, ha⟩, ⟨b, hb⟩⟩ := validate_none_parses u hv
    refine ⟨FilterOutcome.schemes (schemes.filter (fun sch =>
      passes_all_checks sch a b (lowerStr (u.gender.getD [])) (lowerStr (u.caste.getD []))
        (lowerStr (u.occupation.getD [])) (lowerStr (u.location.getD [])))), ?_⟩
    unfold filter_schemes
    rw [hv, ha, hb]
    dsimp only
    rw [run_filter_eq_filter _ _ _ _ _ _ _ hwf]

/-- Witness for C9: the example schemes have pair age ranges and the filter
returns a result on the example user. -/
theorem filter_schemes_total_witness :
    (∀ sch ∈ exSchemes, age_range_is_pair sch = true) ∧
    ∃ r, filter_schemes exSchemes exUser = Except.ok r :=
  ⟨by decide, filter_schemes_total exSchemes exUser (by decide)⟩

/-- Witness for C1: on the example user and schemes, `filter_schemes` is
the order-preserving filter of the six-axis conjunction. -/
theorem filter_schemes_eq_filter_of_valid_witness :
    (validate_input exUser = none) ∧
    (∀ sch ∈ exSchemes, age_range_wf sch = true) ∧
    filter_schemes exSchemes exUser =
      Except.ok (FilterOutcome.schemes (exSchemes.filter (fun sch =>
        passes_all_checks sch ((exUser.age.bind parseInt).getD 0)
          ((exUser.income.bind parseInt).getD 0)
          (lowerStr (exUser.gender.getD [])) (lowerStr (exUser.caste.getD []))
          (lowerStr (exUser.occupation.getD [])) (lowerStr (exUser.location.getD []))))) :=
  ⟨by decide, by decide,
   filter_schemes_eq_filter_of_valid exSchemes exUser (by decide) (by decide)⟩

/-! Step-2 spec-side definitions. -/

/-- A scheme "has a step2 question" when `step2_question` is present and
its question text is truthy (present and nonempty) — the guard the source
evaluates. -/
def has_step2_question (sch : Scheme) : Bool :=
  match sch.step2_question with
  | none => false
  | some st => truthy st.question

/-- The answer submitted for a scheme: looked up under the scheme id
rendered as a string, a missing answer being the empty string. -/
def submitted_answer (answers : List (Str × Str)) (sch : Scheme) : Str :=
  (answers.lookup (intToStr sch.id)).getD []

/-- The expected answer of a scheme's step2 question, a missing expected
answer being the empty string. -/
def expected_answer_of (sch : Scheme) : Str :=
  match sch.step2_question with
  | some st => st.expected_answer.getD []
  | none => []

/-- The C2 claim. `evaluate_step2` maps each scheme to itself with
`final_eligible` set: to `true` when the scheme has no step2 question
(absent, or with an empty question text, per the source's guard), and
otherwise to the lowercased equality of the submitted answer (missing
treated as the empty string) with the expected answer (missing treated as
the empty string). -/
theorem evaluate_step2_final_eligible_spec (schemes : List Scheme)
    (answers : List (Str × Str)) (i : Nat) (sch : Scheme)
    (h : schemes[i]? = some sch) :
    (evaluate_step2 schemes answers)[i]? =
      some { sch with final_eligible := some (if has_step2_question sch then
        lowerStr (submitted_answer answers sch) == lowerStr (expected_answer_of sch)
        else true) } := by
  unfold evaluate_step2
  rw [List.getElem?_map, h]
  dsimp only [Option.map]
  cases hst : sch.step2_question with
  | none => simp [has_step2_question, hst]
  | some st =>
    cases hq : truthy st.question with
    | false => simp [has_step2_question, hst, hq]
    | true => simp [has_step2_question, hst, hq, submitted_answer, expected_answer_of]

/-- Witness for C2: the example scheme with a question, answered "Yes"
against expected "Yes" (case-insensitively), is finally eligible. -/
theorem evaluate_step2_final_eligible_spec_witness :
    (exSchemes[1]? = some exScheme2) ∧
    (evaluate_step2 exSchemes [(intToStr 2, "yes".data)])[1]? =
      some { exScheme2 with final_eligible := some (if has_step2_question exScheme2 then
          lowerStr (submitted_answer [(intToStr 2, "yes".data)] exScheme2) ==
            lowerStr (expected_answer_of exScheme2)
          else true) } :=
  ⟨by decide,
   evaluate_step2_final_eligible_spec exSchemes [(intToStr 2, "yes".data)] 1 exScheme2 (by decide)⟩

/-- A scheme whose `step2_question` is present as the pair `("", "yes")`:
the question text is the empty string. -/
def schemeEmptyQ : Scheme :=
  { id := 7, extra := [],
    eligibility := { age_range := none, gender := [], caste := [],
                     income_limit := none, occupation := [], loc := [] },
    step2_question := some { question := some [], expected_answer := some "yes".data },
    final_eligible := none }

/-- Counterexample to C7 as stated: this scheme's `step2_question` is
present, the submitted answer (missing, hence the empty string) does not
match the expected answer `"yes"`, yet `evaluate_step2` marks the scheme
finally eligible — eligibility is not conditional on the answer. -/
theorem step2_presence_counterexample :
    (schemeEmptyQ.step2_question.isSome = true) ∧
    ((evaluate_step2 [schemeEmptyQ] []).map Scheme.final_eligible = [some true]) ∧
    (lowerStr (submitted_answer [] schemeEmptyQ) ≠ lowerStr (expected_answer_of schemeEmptyQ)) :=
  ⟨by decide, by decide, by decide⟩

/-- On a scheme whose step2 question is truthy, `evaluate_step2` on the
singleton list sets the flag to the lowercased answer comparison. -/
theorem evaluate_step2_singleton (sch : Scheme) (st : Step2Question)
    (hq : sch.step2_question = some st) (ht : truthy st.question = true)
    (answers : List (Str × Str)) :
    evaluate_step2 [sch] answers =
      [{ sch with final_eligible := some (lowerStr (submitted_answer answers sch) ==
            lowerStr (expected_answer_of sch)) }] := by
  unfold evaluate_step2 submitted_answer expected_answer_of
  simp [hq, ht]

/-- The amended C7 claim. For every scheme whose `step2_question` is
present with a truthy (nonempty) question text, final eligibility is
conditional on the answers mapping: the flag equals the lowercased
comparison of the submitted answer with the expected one, and both
outcomes are realized by suitable answer mappings. (A scheme whose
`step2_question` is present with an empty or missing question text is
instead marked finally eligible unconditionally.) -/
theorem step2_conditional_on_answers (sch : Scheme) (st : Step2Question)
    (hq : sch.step2_question = some st) (ht : truthy st.question = true) :
    (∀ answers : List (Str × Str),
      (evaluate_step2 [sch] answers).map Scheme.final_eligible =
        [some (lowerStr (submitted_answer answers sch) ==
          lowerStr (expected_answer_of sch))]) ∧
    (∃ answers : List (Str × Str),
      (evaluate_step2 [sch] answers).map Scheme.final_eligible = [some true]) ∧
    (∃ answers : List (Str × Str),
      (evaluate_step2 [sch] answers).map Scheme.final_eligible = [some false]) := by
  refine ⟨?_, ?_, ?_⟩
  · intro answers
    rw [evaluate_step2_singleton sch st hq ht answers]
    simp
  · refine ⟨[(intToStr sch.id, st.expected_answer.getD [])], ?_⟩
    rw [evaluate_step2_singleton sch st hq ht _]
    have hsub : submitted_answer [(intToStr sch.id, st.expected_answer.getD [])] sch =
        st.expected_answer.getD [] := by
      simp [submitted_answer, List.lookup]
    have hexp : expected_answer_of sch = st.expected_answer.getD [] := by
      simp [expected_answer_of, hq]
    rw [hsub, hexp]
    simp
  · by_cases he : lowerStr (expected_answer_of sch) = "0".data
    · refine ⟨[(intToStr sch.id, "1".data)], ?_⟩
      rw [evaluate_step2_singleton sch st hq ht _]
      have hsub : submitted_answer [(intToStr sch.id, "1".data)] sch = "1".data := by
        simp [submitted_answer, List.lookup]
      rw [hsub, he]
      simp
      decide
    · refine ⟨[(intToStr sch.id, "0".data)], ?_⟩
      rw [evaluate_step2_singleton sch st hq ht _]
      have hsub : submitted_answer [(intToStr sch.id, "0".data)] sch = "0".data := by
        simp [submitted_answer, List.lookup]
      rw [hsub]
      simp
      intro hc
      exact he hc.symm

/-- Witness for the amended C7 on the example scheme with a question. -/
theorem step2_conditional_on_answers_witness :
    (exScheme2.step2_question =
      some { question := some "Do you own land?".data, expected_answer := some "Yes".data }) ∧
    (truthy (some "Do you own land?".data : Option Str) = true) ∧
    ((∀ answers : List (Str × Str),
      (evaluate_step2 [exScheme2] answers).map Scheme.final_eligible =
        [some (lowerStr (submitted_answer answers exScheme2) ==
          lowerStr (expected_answer_of exScheme2))]) ∧
    (∃ answers : List (Str × Str),
      (evaluate_step2 [exScheme2] answers).map Scheme.final_eligible = [some true]) ∧
    (∃ answers : List (Str × Str),
      (evaluate_step2 [exScheme2] answers).map Scheme.final_eligible = [some false])) :=
  ⟨by decide, by decide,
   step2_conditional_on_answers exScheme2
     { question := some "Do you own land?".data, expected_answer := some "Yes".data }
     (by decide) (by decide)⟩

/-- The loop of `filter_schemes` only selects schemes from its input, in
order: its output is a sublist of the input. -/
theorem run_filter_sublist (schemes : List Scheme) (age income : Int)
    (gender caste occupation location : Str) (l : List Scheme)
    (h : run_filter schemes age income gender caste occupation location = Except.ok l) :
    List.Sublist l schemes := by
  induction schemes generalizing l with
  | nil =>
    unfold run_filter at h
    cases h
    exact List.Sublist.refl _
  | cons sch rest ih =>
    unfold run_filter at h
    cases hse : scheme_is_eligible sch age income gender caste occupation location with
    | error e => rw [hse] at h; cases h
    | ok b =>
      rw [hse] at h
      dsimp only at h
      cases hrf : run_filter rest age income gender caste occupation location with
      | error e => rw [hrf] at h; cases h
      | ok tail =>
        rw [hrf] at h
        dsimp only at h
        cases h
        cases b with
        | true =>
          rw [if_pos rfl]
          exact List.Sublist.cons₂ sch (ih tail hrf)
        | false =>
          rw [if_neg (by simp)]
          exact List.Sublist.cons sch (ih tail hrf)

/-- The C8 claim. `filter_schemes` returns (when it returns a list) a
sublist of the very input records, unchanged; `evaluate_step2` preserves
the length and order of the list and changes each scheme only by setting
`final_eligible`, every other field being equal. -/
theorem filter_evaluate_frame :
    (∀ (schemes : List Scheme) (u : UserInput) (l : List Scheme),
      filter_schemes schemes u = Except.ok (FilterOutcome.schemes l) →
      List.Sublist l schemes) ∧
    (∀ (schemes : List Scheme) (answers : List (Str × Str)),
      (evaluate_step2 schemes answers).length = schemes.length) ∧
    (∀ (schemes : List Scheme) (answers : List (Str × Str)) (i : Nat) (sch : Scheme),
      schemes[i]? = some sch →
      ∃ b : Option Bool,
        (evaluate_step2 schemes answers)[i]? =
          some { sch with final_eligible := b }) := by
  refine ⟨?_, ?_, ?_⟩
  · intro schemes u l h
    unfold filter_schemes at h
    cases hv : validate_input u with
    | some msg => rw [hv] at h; cases h
    | none =>
      rw [hv] at h
      dsimp only at h
      cases ha : u.age.bind parseInt with
      | none =>
        rw [ha] at h
        cases hb : u.income.bind parseInt with
        | none => rw [hb] at h; cases h
        | some b => rw [hb] at h; cases h
      | some a =>
        rw [ha] at h
        cases hb : u.income.bind parseInt with
        | none => rw [hb] at h; cases h
        | some b =>
          rw [hb] at h
          dsimp only at h
          cases hrf : run_filter schemes a b (lowerStr (u.gender.getD []))
              (lowerStr (u.caste.getD [])) (lowerStr (u.occupation.getD []))
              (lowerStr (u.location.getD [])) with
          | error e => rw [hrf] at h; cases h
          | ok l2 =>
            rw [hrf] at h
            dsimp only at h
            cases h
            exact run_filter_sublist schemes a b _ _ _ _ _ hrf
  · intro schemes answers
    unfold evaluate_step2
    exact List.length_map _ _
  · intro schemes answers i sch h
    unfold evaluate_step2
    rw [List.getElem?_map, h]
    dsimp only [Option.map]
    cases hst : sch.step2_question with
    | none => exact ⟨some true, by simp [hst]⟩
    | some st =>
      cases hq : truthy st.question with
      | false => exact ⟨some true, by simp [hst, hq]⟩
      | true =>
        exact ⟨some (lowerStr ((answers.lookup (intToStr sch.id)).getD []) ==
          lowerStr (st.expected_answer.getD [])), by simp [hst, hq]⟩

/-- Witness for C8: the filtered example list is a sublist of the input,
and step-2 output at index 1 is the input scheme with only the flag set. -/
theorem filter_evaluate_frame_witness :
    (filter_schemes exSchemes exUser = Except.ok (FilterOutcome.schemes [exScheme1])) ∧
    (List.Sublist [exScheme1] exSchemes) ∧
    (exSchemes[1]? = some exScheme2) ∧
    (∃ b : Option Bool,
      (evaluate_step2 exSchemes [])[1]? = some { exScheme2 with final_eligible := b }) :=
  ⟨by decide, filter_evaluate_frame.1 exSchemes exUser [exScheme1] (by decide),
   by decide, filter_evaluate_frame.2.2 exSchemes [] 1 exScheme2 (by decide)⟩
